import Mathlib

/-!
Verification of the city-insights client (`src/index.ts`).

The program sends a city name to a local inference server and parses the
JSON the model returns.  The embedding below mirrors the source:

* `Json` and the fueled parser model the ECMAScript `JSON.parse` builtin
  applied by `safeJsonParse` (numbers are kept as uninterpreted lexemes;
  no claim depends on numeric values; duplicate object keys are kept in
  order, a case no claim exercises).
* `jsonStringify2` models `JSON.stringify(schema, null, 2)`.
* `constructMessages`, `isValidResponse`, `safeJsonParse`,
  `validateAndParse` and `getChatResponse` are translated one-for-one
  from the source.  The network call `ollama.chat` is external, so
  `getChatResponse` takes its outcome (a raw response, or the transport
  error the client rejected with) as an explicit argument.
* JavaScript error values are modelled by `ErrorV`: a
  `ChatResponseError` carries `name = "ChatResponseError"`, a message and
  an optional `cause` (any value, hence the extra constructors for the
  raw response and for the plain object literal built in
  `safeJsonParse`).
-/

/-- A parsed JSON value, the result of `JSON.parse`. -/
inductive Json where
  | null
  | bool (b : Bool)
  | num (lexeme : String)
  | str (s : String)
  | arr (elems : List Json)
  | obj (fields : List (String × Json))

/-- The JSON whitespace characters (space, tab, line feed, carriage return). -/
def isJsonWs (c : Char) : Bool :=
  c == ' ' || c == '\t' || c == '\n' || c == '\r'

/-- Drop leading JSON whitespace. -/
def skipWs : List Char → List Char
  | [] => []
  | c :: cs => if isJsonWs c then skipWs cs else c :: cs

/-- Value of a hexadecimal digit. -/
def hexDigitVal (c : Char) : Option Nat :=
  if '0' ≤ c ∧ c ≤ '9' then some (c.toNat - '0'.toNat)
  else if 'a' ≤ c ∧ c ≤ 'f' then some (c.toNat - 'a'.toNat + 10)
  else if 'A' ≤ c ∧ c ≤ 'F' then some (c.toNat - 'A'.toNat + 10)
  else none

/-- The single-character string escapes of JSON (`\u` is handled separately). -/
def escChar (e : Char) : Option Char :=
  if e = '"' then some '"'
  else if e = '\\' then some '\\'
  else if e = '/' then some '/'
  else if e = 'b' then some (Char.ofNat 8)
  else if e = 'f' then some (Char.ofNat 12)
  else if e = 'n' then some '\n'
  else if e = 'r' then some '\r'
  else if e = 't' then some '\t'
  else none

mutual

/-- Parse the body of a JSON string literal (the opening quote already
consumed); returns the decoded characters and the input after the closing
quote.  Control characters below 0x20 are rejected, as in `JSON.parse`.
Lone-surrogate `\u` escapes are not representable as a `Char`; no claim
involves `\u` escapes. -/
def parseStringBody : List Char → Option (List Char × List Char)
  | [] => none
  | c :: cs =>
    if c = '"' then some ([], cs)
    else if c = '\\' then parseEscape cs
    else if c.toNat < 32 then none
    else (parseStringBody cs).map (fun r => (c :: r.1, r.2))

/-- Decode one escape sequence after a backslash, then continue with the
rest of the string body. -/
def parseEscape : List Char → Option (List Char × List Char)
  | [] => none
  | e :: cs =>
    if e = 'u' then
      match cs with
      | h1 :: h2 :: h3 :: h4 :: cs2 =>
        match hexDigitVal h1, hexDigitVal h2, hexDigitVal h3, hexDigitVal h4 with
        | some a, some b, some c2, some d =>
          (parseStringBody cs2).map
            (fun r => (Char.ofNat (4096 * a + 256 * b + 16 * c2 + d) :: r.1, r.2))
        | _, _, _, _ => none
      | _ => none
    else
      match escChar e with
      | some ec => (parseStringBody cs).map (fun r => (ec :: r.1, r.2))
      | none => none

end

/-- Decimal digit test. -/
def isDigitCh (c : Char) : Bool := '0' ≤ c && c ≤ '9'

/-- Split off a maximal run of decimal digits. -/
def takeDigits : List Char → (List Char × List Char)
  | [] => ([], [])
  | c :: cs =>
    if isDigitCh c then
      let r := takeDigits cs
      (c :: r.1, r.2)
    else ([], c :: cs)

/-- The integer part of a JSON number: `0`, or a nonzero digit followed by
digits (leading zeros are rejected, as in `JSON.parse`). -/
def parseIntPart : List Char → Option (List Char × List Char)
  | [] => none
  | c :: cs =>
    if c = '0' then some (['0'], cs)
    else if isDigitCh c then
      let r := takeDigits cs
      some (c :: r.1, r.2)
    else none

/-- The optional fraction part of a JSON number. -/
def parseFrac : List Char → Option (List Char × List Char)
  | [] => some ([], [])
  | c :: cs =>
    if c = '.' then
      match takeDigits cs with
      | ([], _) => none
      | (ds, rest) => some ('.' :: ds, rest)
    else some ([], c :: cs)

/-- The optional exponent part of a JSON number. -/
def parseExpPart : List Char → Option (List Char × List Char)
  | [] => some ([], [])
  | c :: cs =>
    if c = 'e' ∨ c = 'E' then
      match cs with
      | [] => none
      | s :: cs2 =>
        if s = '+' ∨ s = '-' then
          match takeDigits cs2 with
          | ([], _) => none
          | (ds, rest) => some (c :: s :: ds, rest)
        else
          match takeDigits (s :: cs2) with
          | ([], _) => none
          | (ds, rest) => some (c :: ds, rest)
    else some ([], c :: cs)

/-- A JSON number lexeme: optional minus, integer part, optional fraction
and exponent.  The lexeme is kept uninterpreted. -/
def parseNumber (cs : List Char) : Option (List Char × List Char) :=
  let sign : List Char × List Char :=
    match cs with
    | '-' :: rest => (['-'], rest)
    | _ => ([], cs)
  match parseIntPart sign.2 with
  | none => none
  | some (ip, cs2) =>
    match parseFrac cs2 with
    | none => none
    | some (fp, cs3) =>
      match parseExpPart cs3 with
      | none => none
      | some (ep, cs4) => some (sign.1 ++ ip ++ fp ++ ep, cs4)

mutual

/-- Parse one JSON value (no leading whitespace); fueled to make the
mutual recursion structural. -/
def parseValue : Nat → List Char → Option (Json × List Char)
  | 0, _ => none
  | f + 1, cs =>
    match cs with
    | [] => none
    | c :: rest =>
      if c = '"' then
        (parseStringBody rest).map (fun r => (Json.str (String.mk r.1), r.2))
      else if c = '{' then
        match skipWs rest with
        | [] => none
        | d :: rest2 =>
          if d = '}' then some (Json.obj [], rest2)
          else (parseMembers f (d :: rest2)).map (fun r => (Json.obj r.1, r.2))
      else if c = '[' then
        match skipWs rest with
        | [] => none
        | d :: rest2 =>
          if d = ']' then some (Json.arr [], rest2)
          else (parseElements f (d :: rest2)).map (fun r => (Json.arr r.1, r.2))
      else if c = 'n' then
        match rest with
        | c1 :: c2 :: c3 :: rest2 =>
          if c1 = 'u' ∧ c2 = 'l' ∧ c3 = 'l' then some (Json.null, rest2) else none
        | _ => none
      else if c = 't' then
        match rest with
        | c1 :: c2 :: c3 :: rest2 =>
          if c1 = 'r' ∧ c2 = 'u' ∧ c3 = 'e' then some (Json.bool true, rest2) else none
        | _ => none
      else if c = 'f' then
        match rest with
        | c1 :: c2 :: c3 :: c4 :: rest2 =>
          if c1 = 'a' ∧ c2 = 'l' ∧ c3 = 's' ∧ c4 = 'e' then
            some (Json.bool false, rest2)
          else none
        | _ => none
      else (parseNumber (c :: rest)).map (fun r => (Json.num (String.mk r.1), r.2))

/-- Parse the members of a JSON object after `{` and leading whitespace,
up to and including the closing `}`. -/
def parseMembers : Nat → List Char → Option (List (String × Json) × List Char)
  | 0, _ => none
  | f + 1, cs =>
    match cs with
    | [] => none
    | c :: rest =>
      if c = '"' then
        match parseStringBody rest with
        | none => none
        | some (key, rest1) =>
          match skipWs rest1 with
          | [] => none
          | d :: rest2 =>
            if d = ':' then
              match parseValue f (skipWs rest2) with
              | none => none
              | some (v, rest3) =>
                match skipWs rest3 with
                | [] => none
                | e :: rest4 =>
                  if e = ',' then
                    (parseMembers f (skipWs rest4)).map
                      (fun r => ((String.mk key, v) :: r.1, r.2))
                  else if e = '}' then some ([(String.mk key, v)], rest4)
                  else none
            else none
      else none

/-- Parse the elements of a JSON array after `[` and leading whitespace,
up to and including the closing `]`. -/
def parseElements : Nat → List Char → Option (List Json × List Char)
  | 0, _ => none
  | f + 1, cs =>
    match parseValue f cs with
    | none => none
    | some (v, rest) =>
      match skipWs rest with
      | [] => none
      | e :: rest2 =>
        if e = ',' then
          (parseElements f (skipWs rest2)).map (fun r => (v :: r.1, r.2))
        else if e = ']' then some ([v], rest2)
        else none

end

/-- The model of `JSON.parse`: whitespace around a single value, which
must consume the whole input.  The fuel `2 * length + 2` dominates the
parser's call depth (each nested call consumes at least one character
per two units of fuel). -/
def jsonParse (s : String) : Option Json :=
  match parseValue (2 * s.data.length + 2) (skipWs s.data) with
  | some (j, rest) => if (skipWs rest).isEmpty then some j else none
  | none => none

theorem jsonParse_accepts_simple_object :
    jsonParse "\x7b\"a\":\"b\"\x7d" = some (Json.obj [("a", Json.str "b")]) := rfl

theorem jsonParse_accepts_mixed_value :
    jsonParse " \x7b \"a\" : null , \"b\" : [1, true] \x7d " =
      some (Json.obj
        [("a", Json.null), ("b", Json.arr [Json.num "1", Json.bool true])]) := rfl

theorem jsonParse_decodes_escapes :
    jsonParse "\"a\\nb\\u0041\"" = some (Json.str "a\nbA") := rfl

theorem jsonParse_rejects_empty_input : jsonParse "" = none := rfl

theorem jsonParse_rejects_trailing_text : jsonParse "\"x\" 1" = none := rfl

theorem jsonParse_rejects_leading_zero : jsonParse "042" = none := rfl

/-- Lowercase hexadecimal digit, as used by `JSON.stringify` escapes. -/
def hexDigitCh (n : Nat) : Char :=
  if n < 10 then Char.ofNat ('0'.toNat + n) else Char.ofNat ('a'.toNat + n - 10)

/-- String-content escaping of `JSON.stringify`: quote, backslash, the
short control escapes, and `\u00xx` for the remaining control characters. -/
def escapeChars : List Char → List Char
  | [] => []
  | c :: cs =>
    (if c = '"' then ['\\', '"']
     else if c = '\\' then ['\\', '\\']
     else if c = Char.ofNat 8 then ['\\', 'b']
     else if c = '\t' then ['\\', 't']
     else if c = '\n' then ['\\', 'n']
     else if c = Char.ofNat 12 then ['\\', 'f']
     else if c = '\r' then ['\\', 'r']
     else if c.toNat < 32 then
       ['\\', 'u', '0', '0', hexDigitCh (c.toNat / 16), hexDigitCh (c.toNat % 16)]
     else [c]) ++ escapeChars cs

/-- A quoted, escaped JSON string literal. -/
def jsQuote (s : String) : String :=
  String.mk ('"' :: (escapeChars s.data ++ ['"']))

/-- Indentation of `n` spaces. -/
def indentStr (n : Nat) : String := String.mk (List.replicate n ' ')

mutual

/-- Serialization as `JSON.stringify(j, null, 2)` at nesting depth `depth`; fueled to make
the recursion through the field lists structural.  Number lexemes are
emitted verbatim (no claim serializes a number). -/
def stringifyFuel : Nat → Json → Nat → String
  | 0, _, _ => ""
  | f + 1, j, depth =>
    match j with
    | Json.null => "null"
    | Json.bool true => "true"
    | Json.bool false => "false"
    | Json.num lx => lx
    | Json.str s => jsQuote s
    | Json.arr [] => "[]"
    | Json.arr (x :: xs) =>
      "[\n"
        ++ String.intercalate ",\n" (stringifyElemsFuel f (x :: xs) (depth + 1))
        ++ "\n" ++ indentStr (2 * depth) ++ "]"
    | Json.obj [] => String.mk ['{', '}']
    | Json.obj (kv :: kvs) =>
      String.mk ['{', '\n']
        ++ String.intercalate ",\n" (stringifyFieldsFuel f (kv :: kvs) (depth + 1))
        ++ "\n" ++ indentStr (2 * depth) ++ String.mk ['}']

/-- Serialize object entries, one string per entry, already indented. -/
def stringifyFieldsFuel : Nat → List (String × Json) → Nat → List String
  | 0, _, _ => []
  | _ + 1, [], _ => []
  | f + 1, (k, v) :: kvs, depth =>
    (indentStr (2 * depth) ++ jsQuote k ++ ": " ++ stringifyFuel f v depth)
      :: stringifyFieldsFuel f kvs depth

/-- Serialize array elements, one string per element, already indented. -/
def stringifyElemsFuel : Nat → List Json → Nat → List String
  | 0, _, _ => []
  | _ + 1, [], _ => []
  | f + 1, v :: vs, depth =>
    (indentStr (2 * depth) ++ stringifyFuel f v depth) :: stringifyElemsFuel f vs depth

end

mutual

/-- Fuel bound for `stringifyFuel`: the total size of the value dominates
the length of any call path. -/
def jsonSize : Json → Nat
  | Json.null => 1
  | Json.bool _ => 1
  | Json.num _ => 1
  | Json.str _ => 1
  | Json.arr elems => 1 + jsonSizeList elems
  | Json.obj fields => 1 + jsonSizeFields fields

/-- Size of a list of array elements. -/
def jsonSizeList : List Json → Nat
  | [] => 0
  | v :: vs => 1 + jsonSize v + jsonSizeList vs

/-- Size of a list of object fields. -/
def jsonSizeFields : List (String × Json) → Nat
  | [] => 0
  | (_, v) :: kvs => 1 + jsonSize v + jsonSizeFields kvs

end

/-- The model of `JSON.stringify(j, null, 2)`. -/
def jsonStringify2 (j : Json) : String :=
  stringifyFuel (jsonSize j + 1) j 0

theorem jsonParse_rejects_bare_word : jsonParse "not json" = none := rfl

/-- A prompt message, `interface Message` of the source. -/
structure Message where
  role : String
  content : String
deriving DecidableEq, Repr

/-- The `message` field of the ollama `ChatResponse`; the source reads
only its `content`, optional because the source accesses it with `?.`. -/
structure RawMessage where
  content : Option String
deriving DecidableEq, Repr

/-- The raw ollama `ChatResponse`; of its fields the source uses only the
optional `message`. -/
structure RawResponse where
  message : Option RawMessage
deriving DecidableEq, Repr

/-- JavaScript values that occur as thrown errors or as `cause` payloads
in this program.  `chatResponseError m c` is a `ChatResponseError` with
`name = "ChatResponseError"`, message `m` and optional `cause` `c`;
`syntaxError` is the engine's exception from a failed `JSON.parse`
(modelled opaquely); `transportError` is whatever error the ollama client
rejected with; `rawResponseVal` is the raw response used as a cause;
`parseCauseObj c raw` is the plain object literal
`cause: c, rawResponse: raw` built in `safeJsonParse`. -/
inductive ErrorV where
  | chatResponseError (message : String) (cause : Option ErrorV)
  | syntaxError
  | transportError (info : String)
  | rawResponseVal (r : RawResponse)
  | parseCauseObj (cause : ErrorV) (rawResponse : String)

/-- The `name` property of an error value; the `ChatResponseError`
constructor always sets `name = "ChatResponseError"`.  Non-error values
have no `name`. -/
def errName : ErrorV → String
  | ErrorV.chatResponseError _ _ => "ChatResponseError"
  | ErrorV.syntaxError => "SyntaxError"
  | ErrorV.transportError _ => "Error"
  | ErrorV.rawResponseVal _ => ""
  | ErrorV.parseCauseObj _ _ => ""

/-- The three failure classes named by the specification. -/
inductive FailureKind where
  | invalidResponseStructure
  | parseFailure
  | requestFailure
deriving DecidableEq, Repr

/-- Classify a delivered error by inspecting its `cause` one level down:
the inner `ChatResponseError` messages written by the source distinguish
the validation and parse failures, and a transport error is anything the
external client threw (never a `ChatResponseError` of this program). -/
def failureKind : ErrorV → Option FailureKind
  | ErrorV.chatResponseError _ (some inner) =>
    match inner with
    | ErrorV.chatResponseError "Invalid response structure" _ =>
      some FailureKind.invalidResponseStructure
    | ErrorV.chatResponseError "Failed to parse JSON" _ =>
      some FailureKind.parseFailure
    | ErrorV.transportError _ => some FailureKind.requestFailure
    | _ => none
  | _ => none

/-- Model of `safeJsonParse` from the source: `JSON.parse` with the failure wrapped
in a `ChatResponseError` whose cause is the object literal carrying the
parse exception and the raw text.  The `as ChatSchema` cast of the source
is a static assertion with no runtime effect, so any parsed value is
returned. -/
def safeJsonParse (jsonString : String) : Except ErrorV Json :=
  match jsonParse jsonString with
  | some parsed => Except.ok parsed
  | none =>
    Except.error (ErrorV.chatResponseError "Failed to parse JSON"
      (some (ErrorV.parseCauseObj ErrorV.syntaxError jsonString)))

/-- Model of `isValidResponse` from the source: the truthiness check
`!!response.message?.content`, which for a string is false exactly on the
empty string. -/
def isValidResponse (response : RawResponse) : Bool :=
  match response.message with
  | none => false
  | some m =>
    match m.content with
    | none => false
    | some c => if c = "" then false else true

/-- The content text read after the `isValidResponse` guard
(`response.message.content`); the empty default is never reached when the
guard holds. -/
def contentText (response : RawResponse) : String :=
  match response.message with
  | none => ""
  | some m =>
    match m.content with
    | none => ""
    | some c => c

/-- The validate-and-parse step of `getChatResponse` (the body of its
`try` block after the chat call): the guard, then `safeJsonParse`, or a
`ChatResponseError` whose cause is the raw response. -/
def validateAndParse (response : RawResponse) : Except ErrorV Json :=
  if isValidResponse response then safeJsonParse (contentText response)
  else
    Except.error (ErrorV.chatResponseError "Invalid response structure"
      (some (ErrorV.rawResponseVal response)))

/-- The schema literal defined inside `getChatResponse`. -/
def citySchema : Json :=
  Json.obj
    [("city", Json.obj
        [("type", Json.str "string"),
         ("description", Json.str "The city where the user is located.")]),
     ("industry", Json.obj
        [("type", Json.str "string"),
         ("description", Json.str
            "The most popular industry in the city. What the city is known for.")]),
     ("fun", Json.obj
        [("type", Json.str "string"),
         ("description", Json.str "One thing that is fun to do there on a day off.")])]

set_option maxRecDepth 10000 in
/-- The serialized schema text, exactly as `JSON.stringify(schema, null, 2)`
renders it in the system prompt. -/
theorem jsonStringify2_citySchema :
    jsonStringify2 citySchema =
      "\x7b\n  \"city\": \x7b\n    \"type\": \"string\",\n    \"description\": \"The city where the user is located.\"\n  \x7d,\n  \"industry\": \x7b\n    \"type\": \"string\",\n    \"description\": \"The most popular industry in the city. What the city is known for.\"\n  \x7d,\n  \"fun\": \x7b\n    \"type\": \"string\",\n    \"description\": \"One thing that is fun to do there on a day off.\"\n  \x7d\n\x7d" := rfl

/-- The fixed text of the system message before the interpolated schema. -/
def promptHead : String :=
  "You are an assistant that provides detailed information about cities. When given a city name, describe the city including its major industry and one fun activity to do there. Ensure the response is strictly in JSON format adhering to the following schema:\n      \n"

/-- The fixed text of the system message after the interpolated schema. -/
def promptTail : String :=
  "\n      \nDo not include any additional text or explanations outside of the JSON object."

/-- Model of `constructMessages` from the source: the system message with the
serialized schema interpolated, then the user message carrying the city. -/
def constructMessages (city : String) (schema : Json) : List Message :=
  [{ role := "system",
     content := promptHead ++ jsonStringify2 schema ++ promptTail },
   { role := "user", content := city }]

/-- The message of the wrapper error thrown by the `catch` block of
`getChatResponse`. -/
def failMsg (city : String) : String :=
  "Failed to get chat response for city: " ++ city

/-- Model of `getChatResponse` from the source.  The `ollama.chat` call is an
external collaborator, so its outcome is passed in: either the raw
response it resolved with, or the transport error it rejected with (the
client's own error, carried as `info`).  Every failure inside the `try`
block is caught and rethrown as a `ChatResponseError` wrapping the inner
error as its cause. -/
def getChatResponse (city : String) (chatResult : Except String RawResponse) :
    Except ErrorV Json :=
  match chatResult with
  | Except.error t =>
    Except.error (ErrorV.chatResponseError (failMsg city)
      (some (ErrorV.transportError t)))
  | Except.ok response =>
    match validateAndParse response with
    | Except.ok parsed => Except.ok parsed
    | Except.error e =>
      Except.error (ErrorV.chatResponseError (failMsg city) (some e))

/-- Recover the city name from the wrapper error's message by dropping
the fixed `failMsg` text. -/
def recoverCity (message : String) : String :=
  String.mk (message.data.drop ("Failed to get chat response for city: ".data.length))

/-- Whether a parsed JSON value is an object. -/
def isJsonObj : Json → Bool
  | Json.obj _ => true
  | _ => false

/-- A character that needs no escaping inside a JSON string literal. -/
def PlainChar (c : Char) : Prop := c ≠ '"' ∧ c ≠ '\\' ∧ 32 ≤ c.toNat

/-- A string whose characters all appear verbatim inside a JSON string
literal. -/
def PlainStr (s : String) : Prop := ∀ c ∈ s.data, PlainChar c

instance (c : Char) : Decidable (PlainChar c) := by
  unfold PlainChar; infer_instance

instance (s : String) : Decidable (PlainStr s) := by
  unfold PlainStr; exact List.decidableBAll _ _

/-- The response text shape of the first testable property: a JSON object
with the three expected string fields. -/
def jsonText (x y z : String) : String :=
  "\x7b\"city\":\"" ++ x ++ "\",\"industry\":\"" ++ y ++ "\",\"fun\":\"" ++ z ++ "\"\x7d"

/-- The character sequence of `jsonText`, in the shape the parser lemmas
consume. -/
def cityObjChars (x y z : List Char) : List Char :=
  '{' :: '"' :: ("city".data ++ '"' :: ':' :: '"' ::
    (x ++ '"' :: ',' :: '"' :: ("industry".data ++ '"' :: ':' :: '"' ::
      (y ++ '"' :: ',' :: '"' :: ("fun".data ++ '"' :: ':' :: '"' ::
        (z ++ '"' :: '}' :: []))))))

theorem string_mk_data (s : String) : String.mk s.data = s := rfl

theorem skipWs_nonws (c : Char) (l : List Char) (h : isJsonWs c = false) :
    skipWs (c :: l) = c :: l := by
  simp [skipWs, h]

theorem parseStringBody_plain (l : List Char) (h : ∀ c ∈ l, PlainChar c)
    (rest : List Char) : parseStringBody (l ++ '"' :: rest) = some (l, rest) := by
  induction l with
  | nil => simp [parseStringBody]
  | cons c l ih =>
    have hc := h c (List.mem_cons_self c l)
    have h32 : ¬ (c.toNat < 32) := by
      have := hc.2.2
      omega
    simp [parseStringBody, hc.1, hc.2.1, h32,
      ih (fun x hx => h x (List.mem_cons_of_mem c hx))]

theorem parseValue_str (f : Nat) (l : List Char) (h : ∀ c ∈ l, PlainChar c)
    (rest : List Char) :
    parseValue (f + 1) ('"' :: (l ++ '"' :: rest)) =
      some (Json.str (String.mk l), rest) := by
  simp [parseValue, parseStringBody_plain l h rest]

theorem parseMembers_last (f : Nat) (k v rest : List Char)
    (hk : ∀ c ∈ k, PlainChar c) (hv : ∀ c ∈ v, PlainChar c) :
    parseMembers (f + 1 + 1) ('"' :: (k ++ '"' :: ':' :: '"' :: (v ++ '"' :: '}' :: rest))) =
      some ([(String.mk k, Json.str (String.mk v))], rest) := by
  have h1 := parseStringBody_plain k hk (':' :: '"' :: (v ++ '"' :: '}' :: rest))
  have h2 := parseValue_str f v hv ('}' :: rest)
  simp [parseMembers, h1, skipWs_nonws ':' _ rfl, skipWs_nonws '"' _ rfl, h2,
    skipWs_nonws '}' _ rfl]

theorem parseMembers_cons (f : Nat) (k v rest : List Char)
    (hk : ∀ c ∈ k, PlainChar c) (hv : ∀ c ∈ v, PlainChar c) :
    parseMembers (f + 1 + 1) ('"' :: (k ++ '"' :: ':' :: '"' :: (v ++ '"' :: ',' :: '"' :: rest))) =
      (parseMembers (f + 1) ('"' :: rest)).map
        (fun r => ((String.mk k, Json.str (String.mk v)) :: r.1, r.2)) := by
  have h1 := parseStringBody_plain k hk (':' :: '"' :: (v ++ '"' :: ',' :: '"' :: rest))
  have h2 := parseValue_str f v hv (',' :: '"' :: rest)
  simp [parseMembers, h1, skipWs_nonws ':' _ rfl, skipWs_nonws '"' _ rfl, h2,
    skipWs_nonws ',' _ rfl]

theorem parseValue_lbrace_quote (f : Nat) (l : List Char) :
    parseValue (f + 1) ('{' :: '"' :: l) =
      (parseMembers f ('"' :: l)).map (fun r => (Json.obj r.1, r.2)) := rfl

theorem parseValue_cityObj (f : Nat) (x y z : List Char)
    (hx : ∀ c ∈ x, PlainChar c) (hy : ∀ c ∈ y, PlainChar c)
    (hz : ∀ c ∈ z, PlainChar c) :
    parseValue (f + 1 + 1 + 1 + 1 + 1) (cityObjChars x y z) =
      some (Json.obj
        [("city", Json.str (String.mk x)), ("industry", Json.str (String.mk y)),
         ("fun", Json.str (String.mk z))], []) := by
  have hcity : ∀ c ∈ "city".data, PlainChar c := by decide
  have hind : ∀ c ∈ "industry".data, PlainChar c := by decide
  have hfun : ∀ c ∈ "fun".data, PlainChar c := by decide
  have m1 := parseMembers_cons (f + 1 + 1) "city".data x
    ("industry".data ++ '"' :: ':' :: '"' ::
      (y ++ '"' :: ',' :: '"' :: ("fun".data ++ '"' :: ':' :: '"' ::
        (z ++ '"' :: '}' :: [])))) hcity hx
  have m2 := parseMembers_cons (f + 1) "industry".data y
    ("fun".data ++ '"' :: ':' :: '"' :: (z ++ '"' :: '}' :: [])) hind hy
  have m3 := parseMembers_last f "fun".data z [] hfun hz
  rw [m3] at m2
  rw [m2] at m1
  simp only [Option.map_some'] at m1
  simp only [cityObjChars]
  rw [parseValue_lbrace_quote (f + 1 + 1 + 1 + 1)]
  rw [m1]
  simp only [Option.map_some', string_mk_data]

theorem jsonText_data (x y z : String) :
    (jsonText x y z).data = cityObjChars x.data y.data z.data := by
  have hA : ("\x7b\"city\":\"" : String).data
      = ['{', '"', 'c', 'i', 't', 'y', '"', ':', '"'] := rfl
  have hB : ("\",\"industry\":\"" : String).data
      = ['"', ',', '"', 'i', 'n', 'd', 'u', 's', 't', 'r', 'y', '"', ':', '"'] := rfl
  have hC : ("\",\"fun\":\"" : String).data
      = ['"', ',', '"', 'f', 'u', 'n', '"', ':', '"'] := rfl
  have hD : ("\"\x7d" : String).data = ['"', '}'] := rfl
  have hcity : ("city" : String).data = ['c', 'i', 't', 'y'] := rfl
  have hind : ("industry" : String).data
      = ['i', 'n', 'd', 'u', 's', 't', 'r', 'y'] := rfl
  have hfun : ("fun" : String).data = ['f', 'u', 'n'] := rfl
  simp only [jsonText, cityObjChars, String.data_append, hA, hB, hC, hD, hcity,
    hind, hfun, List.cons_append, List.nil_append, List.append_assoc]

theorem jsonText_ne_empty (x y z : String) : jsonText x y z ≠ "" := by
  intro h
  have hd := congrArg String.data h
  rw [jsonText_data] at hd
  simp only [cityObjChars] at hd
  exact List.noConfusion hd

theorem jsonParse_cityText (x y z : String)
    (hx : PlainStr x) (hy : PlainStr y) (hz : PlainStr z) :
    jsonParse (jsonText x y z) =
      some (Json.obj
        [("city", Json.str x), ("industry", Json.str y), ("fun", Json.str z)]) := by
  have hdata := jsonText_data x y z
  unfold jsonParse
  rw [hdata]
  have hskip : skipWs (cityObjChars x.data y.data z.data)
      = cityObjChars x.data y.data z.data := skipWs_nonws '{' _ rfl
  rw [hskip]
  have hL : 2 ≤ (cityObjChars x.data y.data z.data).length := by
    simp only [cityObjChars, List.length_cons]
    omega
  have hfuel : 2 * (cityObjChars x.data y.data z.data).length + 2
      = (2 * (cityObjChars x.data y.data z.data).length - 3) + 1 + 1 + 1 + 1 + 1 := by
    omega
  rw [hfuel]
  have pv := parseValue_cityObj (2 * (cityObjChars x.data y.data z.data).length - 3)
    x.data y.data z.data hx hy hz
  simp only [string_mk_data] at pv
  rw [pv]
  rfl

/-- Claim C1: for every raw response whose message content is the text
`jsonText x y z` (the object with string fields `city`, `industry`, `fun`
in that order, for field values needing no escapes), the
validate-and-parse step succeeds and returns exactly the corresponding
record, with no error raised. -/
theorem c1_wellformed_city_json_parses (x y z : String)
    (hx : PlainStr x) (hy : PlainStr y) (hz : PlainStr z) :
    validateAndParse { message := some { content := some (jsonText x y z) } } =
      Except.ok (Json.obj
        [("city", Json.str x), ("industry", Json.str y), ("fun", Json.str z)]) := by
  have hne := jsonText_ne_empty x y z
  simp [validateAndParse, isValidResponse, contentText, safeJsonParse, hne,
    jsonParse_cityText x y z hx hy hz]

/-- Witness for C1 at the London example of the specification. -/
theorem c1_wellformed_city_json_parses_witness :
    PlainStr "London" ∧ PlainStr "Finance" ∧ PlainStr "Visit the British Museum" ∧
    validateAndParse
        { message := some
            { content := some (jsonText "London" "Finance" "Visit the British Museum") } } =
      Except.ok (Json.obj
        [("city", Json.str "London"), ("industry", Json.str "Finance"),
         ("fun", Json.str "Visit the British Museum")]) :=
  ⟨by decide, by decide, by decide,
    c1_wellformed_city_json_parses "London" "Finance" "Visit the British Museum"
      (by decide) (by decide) (by decide)⟩

set_option maxRecDepth 10000 in
/-- Claim C2: for every city string, including the empty string,
`constructMessages` returns exactly two messages: the first with role
"system" whose content contains the serialized schema (in particular the
substring "industry"), and the second with role "user" whose content is
exactly the given city string, unchanged and unvalidated. -/
theorem c2_constructMessages_shape (city : String) :
    ∃ sys : String,
      constructMessages city citySchema =
        [{ role := "system", content := sys }, { role := "user", content := city }] ∧
      (jsonStringify2 citySchema).data <:+: sys.data ∧
      "industry".data <:+: (jsonStringify2 citySchema).data ∧
      "industry".data <:+: sys.data := by
  have h1 : (jsonStringify2 citySchema).data <:+:
      (promptHead ++ jsonStringify2 citySchema ++ promptTail).data :=
    ⟨promptHead.data, promptTail.data, by simp [String.data_append]⟩
  have h2 : "industry".data <:+: (jsonStringify2 citySchema).data := by decide
  exact ⟨promptHead ++ jsonStringify2 citySchema ++ promptTail, rfl, h1, h2,
    h2.trans h1⟩

/-- Claim C3: for every raw response whose message is absent or whose
message content is the empty string, the validate step fails with the
invalid-response-structure `ChatResponseError` carrying the raw response
as the error's underlying cause. -/
theorem c3_invalid_structure_cause (response : RawResponse)
    (h : response.message = none ∨
      ∃ m, response.message = some m ∧ m.content = some "") :
    validateAndParse response =
      Except.error (ErrorV.chatResponseError "Invalid response structure"
        (some (ErrorV.rawResponseVal response))) := by
  rcases h with h | ⟨m, hm, hc⟩
  · simp [validateAndParse, isValidResponse, h]
  · simp [validateAndParse, isValidResponse, hm, hc]

/-- Witness for C3 at the message-absent response. -/
theorem c3_invalid_structure_cause_witness :
    (RawResponse.mk none).message = none ∧
    validateAndParse (RawResponse.mk none) =
      Except.error (ErrorV.chatResponseError "Invalid response structure"
        (some (ErrorV.rawResponseVal (RawResponse.mk none)))) :=
  ⟨rfl, c3_invalid_structure_cause (RawResponse.mk none) (Or.inl rfl)⟩

/-- Counterexample to claim C4 as stated: the text "42" is valid JSON
that is not a JSON object, yet the parse step succeeds and returns the
parsed number — the `as ChatSchema` cast performs no runtime check, so
only a thrown `JSON.parse` exception produces a parse failure. -/
theorem c4_counterexample :
    jsonParse "42" = some (Json.num "42") ∧
    isJsonObj (Json.num "42") = false ∧
    safeJsonParse "42" = Except.ok (Json.num "42") :=
  ⟨rfl, rfl, rfl⟩

/-- Claim C4 as amended: for every response content text that is
malformed JSON (the deserialization itself fails), the parse step fails
with the parse-failure `ChatResponseError` carrying both the original
parse exception and the raw response text as causes; valid JSON that is
not an object is instead returned as the successful result. -/
theorem c4_malformed_json_fails (s : String) (h : jsonParse s = none) :
    safeJsonParse s =
      Except.error (ErrorV.chatResponseError "Failed to parse JSON"
        (some (ErrorV.parseCauseObj ErrorV.syntaxError s))) := by
  simp [safeJsonParse, h]

/-- Witness for the amended C4 at the unquoted-key example of the
specification. -/
theorem c4_malformed_json_fails_witness :
    jsonParse "\x7bcity: London\x7d" = none ∧
    safeJsonParse "\x7bcity: London\x7d" =
      Except.error (ErrorV.chatResponseError "Failed to parse JSON"
        (some (ErrorV.parseCauseObj ErrorV.syntaxError "\x7bcity: London\x7d"))) :=
  ⟨rfl, c4_malformed_json_fails "\x7bcity: London\x7d" rfl⟩

/-- A mocked response whose message content is the empty string. -/
def emptyContentResponse : RawResponse := { message := some { content := some "" } }

/-- A mocked response whose message content is text that is not JSON. -/
def badJsonResponse : RawResponse := { message := some { content := some "not json" } }

/-- The error delivered to the caller for the empty-content response. -/
def deliveredInvalid : ErrorV :=
  ErrorV.chatResponseError (failMsg "London")
    (some (ErrorV.chatResponseError "Invalid response structure"
      (some (ErrorV.rawResponseVal emptyContentResponse))))

/-- The error delivered to the caller for the non-JSON response. -/
def deliveredParse : ErrorV :=
  ErrorV.chatResponseError (failMsg "London")
    (some (ErrorV.chatResponseError "Failed to parse JSON"
      (some (ErrorV.parseCauseObj ErrorV.syntaxError "not json"))))

/-- Counterexample to claim C5 as stated: two failures of different kinds
(invalid structure vs. parse failure) are delivered with identical `name`
fields — every error the caller sees is named "ChatResponseError", so the
name/label field alone cannot distinguish the kind. -/
theorem c5_counterexample :
    getChatResponse "London" (Except.ok emptyContentResponse) =
      Except.error deliveredInvalid ∧
    getChatResponse "London" (Except.ok badJsonResponse) =
      Except.error deliveredParse ∧
    errName deliveredInvalid = errName deliveredParse ∧
    failureKind deliveredInvalid ≠ failureKind deliveredParse :=
  ⟨rfl, rfl, rfl, by decide⟩

/-- Claim C5 as amended: all failures share one error shape — a
`ChatResponseError` (name "ChatResponseError") with a message and an
optional cause — but the name field is identical for all kinds, so the
caller distinguishes the three kinds by inspecting the delivered error's
cause one level down: the inner error's message ("Invalid response
structure" vs. "Failed to parse JSON"), or a non-`ChatResponseError`
transport error. -/
theorem c5_kind_from_cause (city : String) (chatResult : Except String RawResponse)
    (e : ErrorV) (h : getChatResponse city chatResult = Except.error e) :
    errName e = "ChatResponseError" ∧
    (failureKind e = some FailureKind.requestFailure ↔
      ∃ t, chatResult = Except.error t) ∧
    (failureKind e = some FailureKind.invalidResponseStructure ↔
      ∃ r, chatResult = Except.ok r ∧ isValidResponse r = false) ∧
    (failureKind e = some FailureKind.parseFailure ↔
      ∃ r, chatResult = Except.ok r ∧ isValidResponse r = true ∧
        jsonParse (contentText r) = none) := by
  match chatResult with
  | Except.error t =>
    simp only [getChatResponse, Except.error.injEq] at h
    subst h
    refine ⟨rfl, ?_, ?_, ?_⟩ <;> simp [failureKind]
  | Except.ok response =>
    by_cases hv : isValidResponse response
    · cases hj : jsonParse (contentText response) with
      | some j =>
        exfalso
        simp [getChatResponse, validateAndParse, hv, safeJsonParse, hj] at h
      | none =>
        simp [getChatResponse, validateAndParse, hv, safeJsonParse, hj] at h
        subst h
        refine ⟨rfl, ?_, ?_, ?_⟩ <;> simp [failureKind, hv, hj]
    · simp [getChatResponse, validateAndParse, hv] at h
      subst h
      refine ⟨rfl, ?_, ?_, ?_⟩ <;> simp [failureKind, hv]

/-- Witness for the amended C5 at the empty-content failure. -/
theorem c5_kind_from_cause_witness :
    getChatResponse "London" (Except.ok emptyContentResponse) =
      Except.error deliveredInvalid ∧
    (errName deliveredInvalid = "ChatResponseError" ∧
    (failureKind deliveredInvalid = some FailureKind.requestFailure ↔
      ∃ t, (Except.ok emptyContentResponse : Except String RawResponse) =
        Except.error t) ∧
    (failureKind deliveredInvalid = some FailureKind.invalidResponseStructure ↔
      ∃ r, (Except.ok emptyContentResponse : Except String RawResponse) =
        Except.ok r ∧ isValidResponse r = false) ∧
    (failureKind deliveredInvalid = some FailureKind.parseFailure ↔
      ∃ r, (Except.ok emptyContentResponse : Except String RawResponse) =
        Except.ok r ∧ isValidResponse r = true ∧
        jsonParse (contentText r) = none)) :=
  ⟨rfl, c5_kind_from_cause "London" (Except.ok emptyContentResponse) deliveredInvalid rfl⟩

/-- Claim C6: for every city and every transport-level failure, the
caller receives the request-failure wrapper: a `ChatResponseError` whose
cause is the underlying transport error, classified as a request failure,
and from whose message the city name being queried is recoverable. -/
theorem c6_transport_failure (city t : String) :
    getChatResponse city (Except.error t) =
      Except.error (ErrorV.chatResponseError (failMsg city)
        (some (ErrorV.transportError t))) ∧
    recoverCity (failMsg city) = city ∧
    failureKind (ErrorV.chatResponseError (failMsg city)
      (some (ErrorV.transportError t))) = some FailureKind.requestFailure := by
  refine ⟨rfl, ?_, rfl⟩
  show String.mk ((("Failed to get chat response for city: " ++ city)).data.drop
    ("Failed to get chat response for city: ".data.length)) = city
  rw [String.data_append, List.drop_left]

/-- Claim C7: `constructMessages` is deterministic and side-effect free —
in this pure embedding translated from the source (which only builds
literals from its arguments), the output is a function of the city and
schema arguments alone, so identical inputs yield structurally identical
message sequences. -/
theorem c7_constructMessages_deterministic (city1 city2 : String)
    (schema1 schema2 : Json) (hc : city1 = city2) (hs : schema1 = schema2) :
    constructMessages city1 schema1 = constructMessages city2 schema2 := by
  rw [hc, hs]

/-- Witness for C7 at the Paris example of the specification. -/
theorem c7_constructMessages_deterministic_witness :
    ("Paris" : String) = "Paris" ∧ citySchema = citySchema ∧
    constructMessages "Paris" citySchema = constructMessages "Paris" citySchema :=
  ⟨rfl, rfl,
    c7_constructMessages_deterministic "Paris" "Paris" citySchema citySchema rfl rfl⟩

/-- Claim C8: every response content that deserializes as a syntactically
valid JSON object is accepted as-is and returned, with no post-parse
schema-shape validation — the fields list is arbitrary, so objects
missing any or all of the keys city, industry and fun, or carrying null
values, are returned as the successful result. -/
theorem c8_no_schema_validation (s : String) (fields : List (String × Json))
    (h : jsonParse s = some (Json.obj fields)) :
    safeJsonParse s = Except.ok (Json.obj fields) := by
  simp [safeJsonParse, h]

/-- Witness for C8 at an object missing `city` and `fun` and holding a
null value. -/
theorem c8_no_schema_validation_witness :
    jsonParse "\x7b\"industry\":null\x7d" = some (Json.obj [("industry", Json.null)]) ∧
    safeJsonParse "\x7b\"industry\":null\x7d" =
      Except.ok (Json.obj [("industry", Json.null)]) :=
  ⟨rfl, c8_no_schema_validation "\x7b\"industry\":null\x7d" [("industry", Json.null)] rfl⟩

/-- Claim C9: every error escaping `getChatResponse` — the
structure-validation error and the JSON-parse error included, not only
transport failures — is a `ChatResponseError` whose message is "Failed to
get chat response for city: " followed by the city and whose cause is the
original inner error; the failure kind is therefore only available one
level down, as the wrapper's cause. -/
theorem c9_every_error_wrapped (city : String) (chatResult : Except String RawResponse)
    (e : ErrorV) (h : getChatResponse city chatResult = Except.error e) :
    ∃ inner : ErrorV,
      e = ErrorV.chatResponseError (failMsg city) (some inner) ∧
      ((∃ t, chatResult = Except.error t ∧ inner = ErrorV.transportError t) ∨
        (∃ r, chatResult = Except.ok r ∧ validateAndParse r = Except.error inner)) := by
  match chatResult with
  | Except.error t =>
    simp only [getChatResponse, Except.error.injEq] at h
    exact ⟨ErrorV.transportError t, h.symm, Or.inl ⟨t, rfl, rfl⟩⟩
  | Except.ok response =>
    cases hv : validateAndParse response with
    | ok j => simp [getChatResponse, hv] at h
    | error e2 =>
      simp only [getChatResponse, hv, Except.error.injEq] at h
      exact ⟨e2, h.symm, Or.inr ⟨response, rfl, hv⟩⟩

/-- Witness for C9 at a simulated network error. -/
theorem c9_every_error_wrapped_witness :
    getChatResponse "London" (Except.error "ECONNREFUSED") =
      Except.error (ErrorV.chatResponseError (failMsg "London")
        (some (ErrorV.transportError "ECONNREFUSED"))) ∧
    ∃ inner : ErrorV,
      ErrorV.chatResponseError (failMsg "London")
          (some (ErrorV.transportError "ECONNREFUSED")) =
        ErrorV.chatResponseError (failMsg "London") (some inner) ∧
      ((∃ t, (Except.error "ECONNREFUSED" : Except String RawResponse) =
          Except.error t ∧ inner = ErrorV.transportError t) ∨
        (∃ r, (Except.error "ECONNREFUSED" : Except String RawResponse) =
          Except.ok r ∧ validateAndParse r = Except.error inner)) :=
  ⟨rfl, c9_every_error_wrapped "London" (Except.error "ECONNREFUSED") _ rfl⟩

/-- Claim C10: the structure validation fails if and only if the message
or its content is absent or the content is exactly the empty string; for
every non-empty content (whitespace-only or non-JSON text included),
validation succeeds and JSON parsing is attempted on that content. -/
theorem c10_validation_iff (response : RawResponse) :
    (isValidResponse response = false ↔
      response.message = none ∨
        ∃ m, response.message = some m ∧
          (m.content = none ∨ m.content = some "")) ∧
    (∀ m c, response.message = some m → m.content = some c → c ≠ "" →
      validateAndParse response = safeJsonParse c) := by
  constructor
  · obtain ⟨msg⟩ := response
    cases msg with
    | none => simp [isValidResponse]
    | some mm =>
      obtain ⟨ct⟩ := mm
      cases ct with
      | none => simp [isValidResponse]
      | some c =>
        by_cases hc : c = "" <;> simp [isValidResponse, hc]
  · intro m c hm hc hne
    simp [validateAndParse, isValidResponse, contentText, hm, hc, hne]

/-- Witness for C10 at a non-empty, non-JSON content: validation passes
and parsing is attempted. -/
theorem c10_validation_iff_witness :
    validateAndParse badJsonResponse = safeJsonParse "not json" :=
  (c10_validation_iff badJsonResponse).2 (RawMessage.mk (some "not json"))
    "not json" rfl rfl (by decide)
